import Mathlib

/-!
Shallow embedding of the Footpath Explorer single-page application
(`src/src/App.js`), covering the query builder, the response-to-feature
mapping, the error classification, the view-state transitions of the React
component `App`, and the render conditions of the popup and of the two
action buttons.  Coordinates are rationals (JS numbers modelled exactly on
the inputs the claims speak about); tag objects are association lists.
-/

namespace Footpath

/-- A geometry point of an Overpass element: `{lon, lat}`. -/
structure Point where
  lon : ℚ
  lat : ℚ
deriving Repr, DecidableEq

/-- A raw element of the Overpass JSON response: `el.id`, `el.geometry`
(ordered points), `el.tags` (string-to-string mapping). -/
structure RawElement where
  id : ℕ
  geometry : List Point
  tags : List (String × String)
deriving Repr, DecidableEq

/-- A display feature as built in `searchSegments`: the GeoJSON `Feature`
with `id := el.id`, `geometry.coordinates := el.geometry.map (point =>
[point.lon, point.lat])` and `properties := el.tags`. -/
structure Feature where
  id : ℕ
  coordinates : List (ℚ × ℚ)
  properties : List (String × String)
deriving Repr, DecidableEq

/-- The element-to-feature mapping inside `searchSegments`
(`response.data.elements.map((el) => ...)`, `App.js` lines 62-70). -/
def mapElement (el : RawElement) : Feature :=
  { id := el.id
    coordinates := el.geometry.map (fun p => (p.lon, p.lat))
    properties := el.tags }

/-- The bounding box handed to `searchSegments` by `ButtonOverlay.handleAction`:
`{south, west, north, east}`. -/
structure BoundingBox where
  south : ℚ
  west : ℚ
  north : ℚ
  east : ℚ
deriving Repr, DecidableEq

/-- The longitude normalization applied to `west` and to `east` in
`searchSegments` (`App.js` lines 18-23): `if (x < -180) x += 360`. -/
def normalizeLon (x : ℚ) : ℚ :=
  if x < -180 then x + 360 else x

/-- The Overpass query template literal of `searchSegments`
(`App.js` lines 24-55), as a function of the four interpolated strings.
The text, line breaks and indentation are those of the source. -/
def overpassQuery (south west north east : String) : String :=
  "\n        [out:json][timeout:15][bbox:" ++ south ++ ", " ++ west ++ ", "
    ++ north ++ ", " ++ east ++
  "];\n\n        (\n          wr[\"leisure\"=\"park\"];\n          wr[\"leisure\"=\"track\"];\n          wr[\"leisure\"=\"nature_reserve\"];  \n        )->.areas;\n\n        (\n          .areas map_to_area;\n        )->.areas;\n\n        (\n          way[\"highway\"=\"pedestrian\"];\n          way[\"highway\"=\"footpath\"];\n          way[\"highway\"=\"footway\"];\n          way[\"designated\"];\n          way[\"yes\"];\n          way[\"foot\"=\"use_sidepath\"];\n        )->.segments;\n\n        (\n          way.segments;\n          -\n          way.segments[\"access\"=\"private\"];\n        )->.segments;\n          \n        way.segments(area.areas)->.segments;\n\n        .segments out geom 100;\n    "

/-- The query built by `searchSegments` for a bounding box: it first
normalizes `west` and `east`, then interpolates `south, west, north, east`
into the template.  `toStr` stands for the JavaScript number-to-string
conversion performed by the template literal. -/
def buildQuery (toStr : ℚ → String) (b : BoundingBox) : String :=
  overpassQuery (toStr b.south) (toStr (normalizeLon b.west))
    (toStr b.north) (toStr (normalizeLon b.east))

/-- The area-selection block of the template: polygonal/relational features
tagged `leisure=park`, `leisure=track` or `leisure=nature_reserve`. -/
def areaSelectClause : String :=
  "(\n          wr[\"leisure\"=\"park\"];\n          wr[\"leisure\"=\"track\"];\n          wr[\"leisure\"=\"nature_reserve\"];  \n        )->.areas;"

/-- The block turning the selected areas into an area set. -/
def mapToAreaClause : String :=
  "(\n          .areas map_to_area;\n        )->.areas;"

/-- The way-selection block: ways tagged `highway=pedestrian`,
`highway=footpath`, `highway=footway`, or carrying a `designated`, `yes` or
`foot=use_sidepath` tag. -/
def waySelectClause : String :=
  "(\n          way[\"highway\"=\"pedestrian\"];\n          way[\"highway\"=\"footpath\"];\n          way[\"highway\"=\"footway\"];\n          way[\"designated\"];\n          way[\"yes\"];\n          way[\"foot\"=\"use_sidepath\"];\n        )->.segments;"

/-- The difference block removing ways tagged `access=private`. -/
def privateExclusionClause : String :=
  "(\n          way.segments;\n          -\n          way.segments[\"access\"=\"private\"];\n        )->.segments;"

/-- The block intersecting the remaining ways with the selected areas. -/
def areaIntersectClause : String :=
  "way.segments(area.areas)->.segments;"

/-- The output statement: geometry output with a result limit of 100. -/
def outputClause : String :=
  ".segments out geom 100;"

/-- The two failure kinds distinguished by the `catch` block of
`searchSegments` (`App.js` lines 73-79). -/
inductive ErrKind
  | TimedOut
  | RequestFailed
deriving Repr, DecidableEq

/-- The classification in the `catch` block: `error.code === 'ECONNABORTED'`
(the axios client-side timeout) is a timeout, anything else is a generic
failure. -/
def classifyError (code : String) : ErrKind :=
  if code = "ECONNABORTED" then .TimedOut else .RequestFailed

/-- The user-facing message set for each failure kind
(`App.js` lines 76 and 78). -/
def errorText : ErrKind → String
  | .TimedOut => "Query timed out. Try reducing the search area."
  | .RequestFailed => "An error occurred while fetching the data."

/-- The React state of `App`: the four `useState` hooks `segments`,
`selectedSegmentId`, `loading`, `errorMessage` (`App.js` lines 7-10). -/
structure ViewState where
  segments : List Feature
  selectedId : Option ℕ
  loading : Bool
  errorMessage : String
deriving Repr, DecidableEq

/-- The initial state: `[]`, `null`, `false`, `""`. -/
def initState : ViewState :=
  { segments := [], selectedId := none, loading := false, errorMessage := "" }

/-- The prefix of `searchSegments` that runs before the response arrives:
`setLoading(true); setErrorMessage("")` (`App.js` lines 13-14). -/
def startSearch (s : ViewState) : ViewState :=
  { s with loading := true, errorMessage := "" }

/-- The success continuation of `searchSegments`: `setSegments(features)`
from the `try` block, then `setLoading(false)` from the `finally` block
(`App.js` lines 72 and 81).  Neither `selectedSegmentId` nor
`errorMessage` is written on this path. -/
def completeSearchOk (s : ViewState) (fs : List Feature) : ViewState :=
  { s with segments := fs, loading := false }

/-- The failure continuation of `searchSegments`: the `catch` block sets the
kind-specific `errorMessage`, then the `finally` block sets
`setLoading(false)` (`App.js` lines 73-82). -/
def completeSearchErr (s : ViewState) (k : ErrKind) : ViewState :=
  { s with errorMessage := errorText k, loading := false }

/-- A whole successful run of `searchSegments`, seen as one state
transition: the pre-response prefix followed by the success continuation. -/
def searchRunOk (s : ViewState) (fs : List Feature) : ViewState :=
  completeSearchOk (startSearch s) fs

/-- A whole failed run of `searchSegments`, seen as one state transition. -/
def searchRunErr (s : ViewState) (k : ErrKind) : ViewState :=
  completeSearchErr (startSearch s) k

/-- `clearSegments` (`App.js` lines 85-89): empties `segments`, clears
`selectedSegmentId` and `errorMessage`; `loading` is not written. -/
def clearSegments (s : ViewState) : ViewState :=
  { segments := [], selectedId := none, loading := s.loading,
    errorMessage := "" }

/-- `closeErrorMessage` (`App.js` lines 91-93): clears `errorMessage` only. -/
def closeErrorMessage (s : ViewState) : ViewState :=
  { s with errorMessage := "" }

/-- The `onEachFeature` click handler (`App.js` lines 163-173): clicking a
feature deselects it when it is already selected, otherwise selects it. -/
def toggleSelect (s : ViewState) (id : ℕ) : ViewState :=
  if s.selectedId = some id then { s with selectedId := none }
  else { s with selectedId := some id }

/-- The popup `onClose` handler (`App.js` line 182):
`setSelectedSegmentId(null)`. -/
def closePopup (s : ViewState) : ViewState :=
  { s with selectedId := none }

/-- The popup render (`App.js` lines 176-191).  The guard is the JavaScript
truthiness test `selectedSegmentId && ...`, so a `null` selection and the
number `0` both suppress the popup.  When rendered, the popup is positioned
at `[coordinates[0][1], coordinates[0][0]]` (latitude first) of the feature
found by `segments.find((segment) => segment.id === selectedSegmentId)` and
shows that feature's `properties`.  A failed `find` or an empty coordinate
list crashes the JavaScript render; both are modelled as no popup. -/
def renderedPopup (s : ViewState) :
    Option ((ℚ × ℚ) × List (String × String)) :=
  match s.selectedId with
  | none => none
  | some id =>
    if id = 0 then none
    else
      match s.segments.find? (fun seg => seg.id == id) with
      | none => none
      | some seg =>
        match seg.coordinates.head? with
        | none => none
        | some c => some ((c.2, c.1), seg.properties)

/-- Whether the "Search This Area" button is enabled:
`disabled={segments.length > 0 || loading}` (`App.js` line 223). -/
def searchEnabled (s : ViewState) : Bool :=
  !(s.segments.length > 0 || s.loading)

/-- Whether the "Clear Segments" button is enabled:
`disabled={segments.length === 0 || loading}` (`App.js` line 240). -/
def clearEnabled (s : ViewState) : Bool :=
  !(s.segments.length == 0 || s.loading)

/-- One UI-triggered transition of `App`'s state.  Guards come from the
render conditions: the search button is enabled only while `segments` is
empty and nothing is loading; a search completion requires an outstanding
search; a feature can be clicked only while it is rendered, i.e. a member
of the current `segments` (the `GeoJSON` layer renders only when
`segments.length > 0`); the clear button is enabled only while `segments`
is nonempty and nothing is loading; the popup close and the error dismiss
are always harmless to allow. -/
inductive Step : ViewState → ViewState → Prop
  | start (s : ViewState) (hseg : s.segments = []) (hload : s.loading = false) :
      Step s (startSearch s)
  | finishOk (s : ViewState) (fs : List Feature) (hload : s.loading = true) :
      Step s (completeSearchOk s fs)
  | finishErr (s : ViewState) (k : ErrKind) (hload : s.loading = true) :
      Step s (completeSearchErr s k)
  | toggle (s : ViewState) (f : Feature) (hmem : f ∈ s.segments) :
      Step s (toggleSelect s f.id)
  | popupClose (s : ViewState) :
      Step s (closePopup s)
  | clear (s : ViewState) (hseg : s.segments ≠ []) (hload : s.loading = false) :
      Step s (clearSegments s)
  | dismiss (s : ViewState) :
      Step s (closeErrorMessage s)

/-- States reachable from the initial state through the exposed UI
operations. -/
inductive Reachable : ViewState → Prop
  | init : Reachable initState
  | step {s t : ViewState} : Reachable s → Step s t → Reachable t

/-- The combined inductive invariant: while a search is outstanding,
`segments` is empty and `errorMessage` is cleared; a set `selectedId`
names a currently listed feature; a nonempty `errorMessage` coexists only
with an empty feature list. -/
def StateInv (s : ViewState) : Prop :=
  (s.loading = true → s.segments = [] ∧ s.errorMessage = "") ∧
  (∀ i, s.selectedId = some i → ∃ f ∈ s.segments, f.id = i) ∧
  (s.errorMessage ≠ "" → s.segments = [])

lemma stateInv_init : StateInv initState := by
  refine ⟨by simp [initState], ?_, by simp [initState]⟩
  intro i hi
  simp [initState] at hi

lemma stateInv_step {s t : ViewState} (hs : StateInv s) (h : Step s t) :
    StateInv t := by
  obtain ⟨hload, hsel, herr⟩ := hs
  cases h with
  | start hseg hl =>
    refine ⟨fun _ => ⟨hseg, rfl⟩, ?_, by simp [startSearch]⟩
    intro i hi
    exact hsel i hi
  | finishOk fs hl =>
    obtain ⟨hseg, he⟩ := hload hl
    refine ⟨by simp [completeSearchOk], ?_, ?_⟩
    · intro i hi
      obtain ⟨f, hf, _⟩ := hsel i hi
      rw [hseg] at hf
      exact absurd hf (List.not_mem_nil f)
    · intro hne
      exact absurd he hne
  | finishErr k hl =>
    obtain ⟨hseg, _⟩ := hload hl
    refine ⟨by simp [completeSearchErr], ?_, fun _ => hseg⟩
    intro i hi
    obtain ⟨f, hf, _⟩ := hsel i hi
    rw [hseg] at hf
    exact absurd hf (List.not_mem_nil f)
  | toggle f hmem =>
    unfold toggleSelect
    split
    · refine ⟨hload, ?_, herr⟩
      intro i hi
      simp at hi
    · refine ⟨hload, ?_, herr⟩
      intro i hi
      simp at hi
      exact ⟨f, hmem, hi⟩
  | popupClose =>
    refine ⟨hload, ?_, herr⟩
    intro i hi
    simp [closePopup] at hi
  | clear hseg hl =>
    refine ⟨by simp [clearSegments, hl], ?_, by simp [clearSegments]⟩
    intro i hi
    simp [clearSegments] at hi
  | dismiss =>
    refine ⟨?_, hsel, by simp [closeErrorMessage]⟩
    intro hl
    exact ⟨(hload hl).1, rfl⟩

lemma stateInv_of_reachable {s : ViewState} (h : Reachable s) : StateInv s := by
  induction h with
  | init => exact stateInv_init
  | step _ hstep ih => exact stateInv_step ih hstep

/-- C1 (amended): a successful run of `searchSegments` replaces `segments`
with the new feature list, clears `errorMessage`, and sets `loading` to
false, but leaves `selectedId` unchanged — the success path never writes
`setSelectedSegmentId`.  (In every UI-reachable state from which a search
can start, `selectedId` is already `none`, so it is `none` afterwards as
well.) -/
theorem searchRunOk_replaces_features (s : ViewState) (fs : List Feature) :
    searchRunOk s fs =
      { segments := fs, selectedId := s.selectedId, loading := false,
        errorMessage := "" } := rfl

/-- C1 counterexample: from a state whose `selectedId` is `some 5`, a
successful search completion leaves `selectedId` set; the claim that it is
cleared for every prior `selectedId` value is false. -/
theorem searchRunOk_keeps_selectedId :
    (searchRunOk
      { segments := [], selectedId := some 5, loading := false,
        errorMessage := "" } []).selectedId ≠ none := by
  simp [searchRunOk, completeSearchOk, startSearch]

/-- C2 (amended): applying `toggleSelect x` twice returns the state (hence
`selectedId`) to its original value whenever the starting `selectedId` is
`none` or already `some x`; it does not when the starting selection is a
different id. -/
theorem toggleSelect_twice (s : ViewState) (x : ℕ)
    (h : s.selectedId = none ∨ s.selectedId = some x) :
    toggleSelect (toggleSelect s x) x = s := by
  cases s with
  | mk segs sel load err =>
    rcases h with h | h <;> simp only at h <;> subst h <;>
      simp [toggleSelect]

/-- C2 witness: the double toggle at a concrete unselected state. -/
theorem toggleSelect_twice_witness :
    toggleSelect (toggleSelect
      { segments := [], selectedId := none, loading := false,
        errorMessage := "" } 4) 4 =
      { segments := [], selectedId := none, loading := false,
        errorMessage := "" } :=
  toggleSelect_twice _ 4 (Or.inl rfl)

/-- C2 counterexample: starting from `selectedId = some 2`, toggling id 1
twice ends with `selectedId = none`, not the original `some 2`. -/
theorem toggleSelect_twice_from_other_id :
    (toggleSelect (toggleSelect
      { segments := [], selectedId := some 2, loading := false,
        errorMessage := "" } 1) 1).selectedId ≠ some 2 := by
  simp [toggleSelect]

/-- C9: `clearSegments` always empties `segments`, clears `selectedId` and
`errorMessage`, and leaves `loading` unchanged. -/
theorem clearSegments_resets (s : ViewState) :
    (clearSegments s).segments = [] ∧
    (clearSegments s).selectedId = none ∧
    (clearSegments s).errorMessage = "" ∧
    (clearSegments s).loading = s.loading :=
  ⟨rfl, rfl, rfl, rfl⟩

/-- C5: a failed run of `searchSegments` classifies the error by the axios
code — `ECONNABORTED` (the client-side timeout) yields the timeout message,
every other code yields the generic message — and in both cases `segments`
and `selectedId` are untouched and `loading` ends false. -/
theorem searchRunErr_classification (s : ViewState) (code : String) :
    (searchRunErr s (classifyError code)).errorMessage =
      (if code = "ECONNABORTED" then
        "Query timed out. Try reducing the search area."
      else "An error occurred while fetching the data.") ∧
    (searchRunErr s (classifyError code)).segments = s.segments ∧
    (searchRunErr s (classifyError code)).loading = false ∧
    (searchRunErr s (classifyError code)).selectedId = s.selectedId := by
  refine ⟨?_, rfl, rfl, rfl⟩
  by_cases h : code = "ECONNABORTED" <;>
    simp [searchRunErr, completeSearchErr, startSearch, classifyError,
      errorText, h]

/-- C4: mapping a response's `elements` yields exactly as many features, in
the same order; each feature keeps its element's `id` and `tags` and turns
every geometry point `{lon, lat}` into the pair `[lon, lat]`, in original
order. -/
theorem mapElements_preserves (els : List RawElement) :
    (els.map mapElement).length = els.length ∧
    (∀ n : ℕ, (els.map mapElement)[n]? = els[n]?.map mapElement) ∧
    ∀ el : RawElement,
      (mapElement el).id = el.id ∧
      (mapElement el).properties = el.tags ∧
      (mapElement el).coordinates.length = el.geometry.length ∧
      ∀ m : ℕ, (mapElement el).coordinates[m]? =
        el.geometry[m]?.map (fun p => (p.lon, p.lat)) := by
  refine ⟨by simp, fun n => by simp, fun el => ⟨rfl, rfl, ?_, fun m => ?_⟩⟩
  · simp [mapElement]
  · simp [mapElement]

/-- C3 (amended): when `west` or `east` is below -180, the query builder
adds 360 to it before embedding it; the result lies within [-180, 180]
provided the original value is at least -540 (a single antimeridian wrap,
which is all a map view can produce; a value below -540 would still be
below -180 after the single correction).  The last conjunct records that
the embedded west/east strings are exactly the normalized values. -/
theorem normalizeLon_bounds (b : BoundingBox) :
    (b.west < -180 →
      normalizeLon b.west = b.west + 360 ∧
      (-540 ≤ b.west →
        -180 ≤ normalizeLon b.west ∧ normalizeLon b.west ≤ 180)) ∧
    (b.east < -180 →
      normalizeLon b.east = b.east + 360 ∧
      (-540 ≤ b.east →
        -180 ≤ normalizeLon b.east ∧ normalizeLon b.east ≤ 180)) ∧
    ∀ toStr : ℚ → String, buildQuery toStr b =
      overpassQuery (toStr b.south) (toStr (normalizeLon b.west))
        (toStr b.north) (toStr (normalizeLon b.east)) := by
  refine ⟨?_, ?_, fun _ => rfl⟩ <;>
  · intro h
    rw [normalizeLon, if_pos h]
    exact ⟨rfl, fun h540 => ⟨by linarith, by linarith⟩⟩

/-- C3 witness: the spec's own example, west = -190: the embedded value is
-190 + 360 = 170, inside [-180, 180]. -/
theorem normalizeLon_bounds_witness :
    normalizeLon (-190 : ℚ) = -190 + 360 ∧
    -180 ≤ normalizeLon (-190 : ℚ) ∧ normalizeLon (-190 : ℚ) ≤ 180 := by
  have h := (normalizeLon_bounds ⟨40, -190, 41, -170⟩).1 (by norm_num)
  exact ⟨h.1, h.2 (by norm_num)⟩

/-- C3 counterexample: west = -600 is below -180, yet after the single
`+ 360` correction the embedded value is -240, outside [-180, 180]. -/
theorem normalizeLon_out_of_range :
    (-600 : ℚ) < -180 ∧ normalizeLon (-600 : ℚ) = -240 ∧
    normalizeLon (-600 : ℚ) < -180 := by
  norm_num [normalizeLon]

set_option maxRecDepth 8192 in
/-- C7: the query built for a bounding box embeds south, west, north, east
in that order (west and east normalized) into the fixed template whose
successive blocks select the park/track/nature-reserve leisure areas,
convert them to an area set, select the pedestrian/footpath/footway and
foot-access/designation-tagged ways, subtract ways tagged
`access=private`, intersect the remainder with the areas, and request
geometry output limited to 100 results under a server-side
`[timeout:15]`. -/
theorem buildQuery_structure (toStr : ℚ → String) (b : BoundingBox) :
    buildQuery toStr b =
      "\n        [out:json][timeout:15][bbox:" ++ toStr b.south ++ ", "
        ++ toStr (normalizeLon b.west) ++ ", " ++ toStr b.north ++ ", "
        ++ toStr (normalizeLon b.east) ++
      ("];\n\n        " ++ areaSelectClause ++ "\n\n        "
        ++ mapToAreaClause ++ "\n\n        " ++ waySelectClause
        ++ "\n\n        " ++ privateExclusionClause ++ "\n          \n        "
        ++ areaIntersectClause ++ "\n\n        " ++ outputClause
        ++ "\n    ") := rfl

/-- C6: in every state reachable through the exposed UI operations, a set
`selectedId` names a feature present in the current `segments` list. -/
theorem reachable_selectedId_in_segments (s : ViewState) (h : Reachable s)
    (i : ℕ) (hi : s.selectedId = some i) :
    ∃ f ∈ s.segments, f.id = i :=
  (stateInv_of_reachable h).2.1 i hi

/-- C6 witness: after a search that returns one feature with id 7 and a
click on it, the selected id 7 is listed. -/
theorem reachable_selectedId_in_segments_witness :
    ∃ f ∈ (toggleSelect (completeSearchOk (startSearch initState)
      [{ id := 7, coordinates := [(1, 2)],
         properties := [("highway", "footway")] }]) 7).segments,
      f.id = 7 := by
  have h1 : Reachable (startSearch initState) :=
    Reachable.step Reachable.init (Step.start initState rfl rfl)
  have h2 : Reachable (completeSearchOk (startSearch initState)
      [{ id := 7, coordinates := [(1, 2)],
         properties := [("highway", "footway")] }]) :=
    Reachable.step h1 (Step.finishOk _ _ rfl)
  have h3 := Reachable.step h2 (Step.toggle _
    { id := 7, coordinates := [(1, 2)],
      properties := [("highway", "footway")] }
    (by simp [completeSearchOk, startSearch]))
  exact reachable_selectedId_in_segments _ h3 7 rfl

/-- C10: in every state reachable through the exposed UI operations, a
nonempty `errorMessage` coexists only with an empty `segments` list, so the
"errors leave prior results untouched" path only ever preserves an empty
list. -/
theorem reachable_error_empty_segments (s : ViewState) (h : Reachable s)
    (herr : s.errorMessage ≠ "") : s.segments = [] :=
  (stateInv_of_reachable h).2.2 herr

/-- C10 witness: after a search that fails with a timeout, the error
message is nonempty and the feature list is empty. -/
theorem reachable_error_empty_segments_witness :
    (completeSearchErr (startSearch initState) ErrKind.TimedOut).segments
      = [] := by
  have h1 : Reachable (startSearch initState) :=
    Reachable.step Reachable.init (Step.start initState rfl rfl)
  have h2 : Reachable (completeSearchErr (startSearch initState)
      ErrKind.TimedOut) :=
    Reachable.step h1 (Step.finishErr _ _ rfl)
  exact reachable_error_empty_segments _ h2 (by decide)

/-- C8 (amended): whenever `selectedId` is a nonzero id matching a feature
whose geometry is nonempty, the popup is rendered at that feature's first
coordinate — latitude (second component) first, longitude (first
component) second — showing the feature's tag mapping.  For id 0 the JSX
truthiness guard `selectedSegmentId && ...` suppresses the popup. -/
theorem renderedPopup_at_first_coord (s : ViewState) (id : ℕ)
    (seg : Feature) (c : ℚ × ℚ) (hid : s.selectedId = some id)
    (h0 : id ≠ 0)
    (hfind : s.segments.find? (fun f => f.id == id) = some seg)
    (hc : seg.coordinates.head? = some c) :
    renderedPopup s = some ((c.2, c.1), seg.properties) := by
  simp [renderedPopup, hid, h0, hfind, hc]

/-- C8 witness: a selected nonzero id 3 matching a one-point feature yields
the popup at (lat, lon) = (20, 10) with the feature's tags. -/
theorem renderedPopup_at_first_coord_witness :
    renderedPopup
      { segments :=
          [{ id := 3, coordinates := [(10, 20)],
             properties := [("surface", "gravel")] }],
        selectedId := some 3, loading := false, errorMessage := "" } =
      some ((20, 10), [("surface", "gravel")]) :=
  renderedPopup_at_first_coord _ 3
    { id := 3, coordinates := [(10, 20)],
      properties := [("surface", "gravel")] }
    (10, 20) rfl (by decide) rfl rfl

/-- C8 counterexample: with `selectedId = some 0` matching a feature of id
0 with nonempty geometry, no popup is rendered, because the render guard
is the JavaScript truthiness of the number 0. -/
theorem renderedPopup_zero_id_suppressed :
    ({ segments :=
         [{ id := 0, coordinates := [(10, 20)], properties := [] }],
       selectedId := some 0, loading := false,
       errorMessage := "" } : ViewState).selectedId = some 0 ∧
    ({ segments :=
         [{ id := 0, coordinates := [(10, 20)], properties := [] }],
       selectedId := some 0, loading := false,
       errorMessage := "" } : ViewState).segments.find?
        (fun f => f.id == 0) =
      some { id := 0, coordinates := [(10, 20)], properties := [] } ∧
    renderedPopup
      { segments :=
          [{ id := 0, coordinates := [(10, 20)], properties := [] }],
        selectedId := some 0, loading := false, errorMessage := "" } =
      none :=
  ⟨rfl, rfl, rfl⟩

end Footpath
